import Mathlib

/-!
Verification of the WebGL ocean-shader setup and fragment program of
src/main.js. The first part embeds the load-time IIFE control flow
(context acquisition, shader compilation, program linking, fallback DOM
mutations, render loop start) and the resize handler. The second part
embeds the GLSL fragment shader functions (noise, smoothNoise, fbm,
dither, main) over the real numbers, taking GLSL floats at their ideal
real-number semantics.
-/

set_option maxHeartbeats 1000000

namespace NavalTech

/-- The two shader stages compiled by the script. -/
inductive ShaderKind
  | vertex
  | fragment
deriving DecidableEq

/-- GPU calls relevant to the setup control flow: a gl.compileShader call
for a stage (line 96), the gl.linkProgram call (line 120), and a
gl.drawArrays call (line 167). -/
inductive GLCall
  | compile (k : ShaderKind)
  | link
  | draw
deriving DecidableEq

/-- Host-environment facts that decide the setup control flow: whether
canvas.getContext yields a context for each of the two attempted context
kinds (line 7), whether each shader stage reports COMPILE_STATUS true
(line 98), and whether the linked program reports LINK_STATUS true
(line 122). -/
structure GLEnv where
  webglContext : Bool
  experimentalContext : Bool
  vertexCompileOk : Bool
  fragmentCompileOk : Bool
  linkOk : Bool
deriving DecidableEq

/-- The DOM state the script mutates: the fallback element's class list
and the canvas element's display style. -/
structure Dom where
  fallbackClasses : List String
  canvasDisplay : String
deriving DecidableEq

/-- Outcome of running the IIFE: the final DOM state, the GPU calls
issued during setup (first render frame included), and whether the
render loop was started (render called and rescheduled via
requestAnimationFrame, lines 164-170). -/
structure SetupOutcome where
  dom : Dom
  calls : List GLCall
  renderLoopStarted : Bool
deriving DecidableEq

/-- The failure path's DOM mutations, shared by all three failure exits:
fallback.classList.add of the active class and canvas.style.display set
to none (lines 11-12, 112-113, 124-125). classList.add does not add a
duplicate, hence List.insert. -/
def failDom (d : Dom) : Dom :=
  { fallbackClasses := List.insert "active" d.fallbackClasses
    canvasDisplay := "none" }

/-- compileShader helper (lines 93-104): issues the compile call for the
stage and returns the shader exactly when COMPILE_STATUS holds, null
(none) otherwise. -/
def compileShader (ok : Bool) (k : ShaderKind) : Option Unit × List GLCall :=
  (if ok then some () else none, [GLCall.compile k])

/-- The IIFE setup control flow (lines 2-171). gl is the first context
that acquires (webgl, else experimental-webgl); a null gl, a null shader
from either compileShader call, or a false LINK_STATUS each exit through
the fallback path before any later call is issued. On success the quad
and uniforms are set up and render starts, issuing a draw call each
frame. -/
def setup (env : GLEnv) (d : Dom) : SetupOutcome :=
  if env.webglContext || env.experimentalContext then
    let vres := compileShader env.vertexCompileOk ShaderKind.vertex
    let fres := compileShader env.fragmentCompileOk ShaderKind.fragment
    if vres.1.isNone || fres.1.isNone then
      { dom := failDom d, calls := vres.2 ++ fres.2, renderLoopStarted := false }
    else if env.linkOk then
      { dom := d
        calls := vres.2 ++ fres.2 ++ [GLCall.link, GLCall.draw]
        renderLoopStarted := true }
    else
      { dom := failDom d, calls := vres.2 ++ fres.2 ++ [GLCall.link]
        renderLoopStarted := false }
  else
    { dom := failDom d, calls := [], renderLoopStarted := false }

/-- Mutable render state touched by the resize handler: the canvas pixel
size, the GL viewport rectangle, and the resolution uniform value. -/
structure RenderState where
  canvasWidth : Nat
  canvasHeight : Nat
  viewport : Nat × Nat × Nat × Nat
  resolutionUniform : Nat × Nat
deriving DecidableEq

/-- The reported window size consumed by resize. -/
structure WindowSize where
  innerWidth : Nat
  innerHeight : Nat
deriving DecidableEq

/-- resize (lines 152-157): canvas.width and canvas.height are set to
window.innerWidth and window.innerHeight, gl.viewport to
(0, 0, canvas.width, canvas.height), and the resolution uniform to
(canvas.width, canvas.height). -/
def resize (w : WindowSize) (st : RenderState) : RenderState :=
  { st with
    canvasWidth := w.innerWidth
    canvasHeight := w.innerHeight
    viewport := (0, 0, w.innerWidth, w.innerHeight)
    resolutionUniform := (w.innerWidth, w.innerHeight) }

noncomputable section

/-- GLSL vec2 at real-number semantics; arithmetic is componentwise via
the product instances. -/
abbrev Vec2 : Type := ℝ × ℝ

/-- GLSL vec3 at real-number semantics. -/
abbrev Vec3 : Type := ℝ × ℝ × ℝ

/-- GLSL vec4 at real-number semantics. -/
abbrev Vec4 : Type := ℝ × ℝ × ℝ × ℝ

/-- GLSL dot for vec2. -/
def dot (a b : Vec2) : ℝ := a.1 * b.1 + a.2 * b.2

/-- GLSL fract: x minus its floor. -/
def fract (x : ℝ) : ℝ := Int.fract x

/-- GLSL mix on scalars: x * (1 - a) + y * a. -/
def mix (x y a : ℝ) : ℝ := x * (1 - a) + y * a

/-- GLSL mix on vec3, componentwise. -/
def mix3 (x y : Vec3) (a : ℝ) : Vec3 :=
  (mix x.1 y.1 a, mix x.2.1 y.2.1 a, mix x.2.2 y.2.2 a)

/-- GLSL clamp. -/
def clamp (x lo hi : ℝ) : ℝ := min (max x lo) hi

/-- GLSL smoothstep: the 3t^2 - 2t^3 polynomial of the clamped linear
ramp between the two edges. -/
def smoothstep (e0 e1 x : ℝ) : ℝ :=
  let t := clamp ((x - e0) / (e1 - e0)) 0 1
  t * t * (3 - 2 * t)

/-- GLSL length for vec2. -/
def length (v : Vec2) : ℝ := Real.sqrt (v.1 * v.1 + v.2 * v.2)

/-- noise (lines 30-32): the sine/fractional-part coordinate hash. -/
def noise (p : Vec2) : ℝ :=
  fract (Real.sin (dot p (12.9898, 78.233)) * 43758.5453)

/-- smoothNoise (lines 34-45): eased bilinear interpolation between the
four corner hashes of the unit cell containing p. -/
def smoothNoise (p : Vec2) : ℝ :=
  let i : Vec2 := ((⌊p.1⌋ : ℝ), (⌊p.2⌋ : ℝ))
  let f0 : Vec2 := (fract p.1, fract p.2)
  let f : Vec2 := (f0.1 * f0.1 * (3 - 2 * f0.1), f0.2 * f0.2 * (3 - 2 * f0.2))
  let a := noise i
  let b := noise (i + (1, 0))
  let c := noise (i + (0, 1))
  let d := noise (i + (1, 1))
  mix (mix a b f.1) (mix c d f.1) f.2

/-- The for loop of fbm (lines 52-56), unrolled on the iteration count:
each pass adds amplitude * smoothNoise(p * frequency), then doubles the
frequency and halves the amplitude. -/
def fbmLoop : Nat → Vec2 → ℝ → ℝ → ℝ → ℝ
  | 0, _, value, _, _ => value
  | n + 1, p, value, amplitude, frequency =>
      fbmLoop n p (value + amplitude * smoothNoise (frequency • p))
        (amplitude * 0.5) (frequency * 2)

/-- fbm (lines 47-58): 5 loop passes from value 0, amplitude 0.5,
frequency 1. -/
def fbm (p : Vec2) : ℝ := fbmLoop 5 p 0 0.5 1

/-- dither (lines 60-62). -/
def dither (p : Vec2) : ℝ :=
  fract (dot p (0.129898, 0.78233) * 43758.5453)

/-- wave1 (line 68): first fractal field, phase shifted by time. -/
def wave1 (time : ℝ) (p : Vec2) : ℝ :=
  fbm (p + (time * 0.05, time * 0.03))

/-- wave2 (line 69): second fractal field at 1.5 times the spatial
scale, phase shifted the opposite way. -/
def wave2 (time : ℝ) (p : Vec2) : ℝ :=
  fbm ((1.5 : ℝ) • p - (time * 0.04, time * 0.02))

/-- The blended pattern scalar of main (lines 65-74): the 60/40 blend of
the two fields at p = uv * 3, plus the dither value at weight 0.08. -/
def patternAt (fragCoord : Vec2) (time : ℝ) (resolution : Vec2) : ℝ :=
  let uv : Vec2 := fragCoord / resolution
  let p : Vec2 := (3 : ℝ) • uv
  wave1 time p * 0.6 + wave2 time p * 0.4 + dither fragCoord * 0.08

/-- The fragment shader main (lines 64-89) as a function of
gl_FragCoord.xy and the two uniforms: the pattern scalar drives a
two-stage colour blend plus a smoothstep-gated highlight blend, the
result is attenuated by the radial vignette, and the output alpha is
fixed at 1. -/
def fragMain (fragCoord : Vec2) (time : ℝ) (resolution : Vec2) : Vec4 :=
  let uv : Vec2 := fragCoord / resolution
  let pattern := patternAt fragCoord time resolution
  let deepBlue : Vec3 := (0.05, 0.08, 0.15)
  let midBlue : Vec3 := (0.08, 0.12, 0.22)
  let steelGray : Vec3 := (0.15, 0.18, 0.24)
  let accentCyan : Vec3 := (0.15, 0.25, 0.35)
  let color1 := mix3 deepBlue midBlue pattern
  let color2 := mix3 color1 steelGray (smoothstep 0.4 0.8 pattern)
  let color3 := mix3 color2 accentCyan (smoothstep 0.7 1.0 pattern * 0.3)
  let vignette := 1 - length (uv - (0.5, 0.5)) * 0.7
  let color := vignette • color3
  (color.1, color.2.1, color.2.2, 1)

/-- The smoothstep ease polynomial named by the spec: t * t * (3 - 2t). -/
def smoothstepUnit (t : ℝ) : ℝ := t * t * (3 - 2 * t)

/-- Spec-side bilinear interpolation of four corner values with weights
u (horizontal) and v (vertical), written as the standard four-term sum;
compared against the nested-mix form the shader computes. -/
def bilerpSpec (a b c d u v : ℝ) : ℝ :=
  a * (1 - u) * (1 - v) + b * u * (1 - v) + c * (1 - u) * v + d * u * v

end

/-- Claim C1: if both context attempts fail, the fallback element gains
the active class, the canvas display style is set to none, and setup
aborts: no shader is compiled, no program is linked, no draw call is
ever issued, and the render loop never starts. -/
theorem C1_context_failure_aborts (env : GLEnv) (d : Dom)
    (hw : env.webglContext = false) (he : env.experimentalContext = false) :
    "active" ∈ (setup env d).dom.fallbackClasses ∧
    (setup env d).dom.canvasDisplay = "none" ∧
    (setup env d).calls = [] ∧
    (setup env d).renderLoopStarted = false := by
  simp [setup, hw, he, failDom, List.mem_insert_iff]

/-- Witness for C1 at a concrete environment and initial DOM. -/
theorem C1_context_failure_aborts_witness :
    "active" ∈ (setup ⟨false, false, true, true, true⟩ ⟨[], "block"⟩).dom.fallbackClasses ∧
    (setup ⟨false, false, true, true, true⟩ ⟨[], "block"⟩).dom.canvasDisplay = "none" ∧
    (setup ⟨false, false, true, true, true⟩ ⟨[], "block"⟩).calls = [] ∧
    (setup ⟨false, false, true, true, true⟩ ⟨[], "block"⟩).renderLoopStarted = false :=
  C1_context_failure_aborts ⟨false, false, true, true, true⟩ ⟨[], "block"⟩ rfl rfl

/-- Claim C2: if either shader stage fails to compile (its compileShader
returns null), linking is never attempted, the fallback element is
marked active, and the canvas is hidden. -/
theorem C2_compile_failure_no_link (env : GLEnv) (d : Dom)
    (hgl : (env.webglContext || env.experimentalContext) = true)
    (hc : env.vertexCompileOk = false ∨ env.fragmentCompileOk = false) :
    GLCall.link ∉ (setup env d).calls ∧
    "active" ∈ (setup env d).dom.fallbackClasses ∧
    (setup env d).dom.canvasDisplay = "none" := by
  rcases hc with h | h <;>
    simp [setup, hgl, h, compileShader, failDom, List.mem_insert_iff]

/-- Witness for C2 at a concrete environment where the vertex stage
fails to compile. -/
theorem C2_compile_failure_no_link_witness :
    GLCall.link ∉ (setup ⟨true, false, false, true, true⟩ ⟨[], "block"⟩).calls ∧
    "active" ∈ (setup ⟨true, false, false, true, true⟩ ⟨[], "block"⟩).dom.fallbackClasses ∧
    (setup ⟨true, false, false, true, true⟩ ⟨[], "block"⟩).dom.canvasDisplay = "none" :=
  C2_compile_failure_no_link ⟨true, false, false, true, true⟩ ⟨[], "block"⟩ rfl (Or.inl rfl)

/-- Claim C7: for every window size of at least 1 times 1, after resize
the canvas pixel dimensions equal the window's innerWidth and
innerHeight exactly, the viewport is set to those dimensions, and the
resolution uniform holds the same two values. -/
theorem C7_resize_matches_window (w : WindowSize) (st : RenderState)
    (hw : 1 ≤ w.innerWidth) (hh : 1 ≤ w.innerHeight) :
    (resize w st).canvasWidth = w.innerWidth ∧
    (resize w st).canvasHeight = w.innerHeight ∧
    (resize w st).viewport = (0, 0, w.innerWidth, w.innerHeight) ∧
    (resize w st).resolutionUniform = (w.innerWidth, w.innerHeight) :=
  ⟨rfl, rfl, rfl, rfl⟩

/-- Witness for C7 at the concrete window size 800 times 600. -/
theorem C7_resize_matches_window_witness :
    (resize ⟨800, 600⟩ ⟨0, 0, (0, 0, 0, 0), (0, 0)⟩).canvasWidth = 800 ∧
    (resize ⟨800, 600⟩ ⟨0, 0, (0, 0, 0, 0), (0, 0)⟩).canvasHeight = 600 ∧
    (resize ⟨800, 600⟩ ⟨0, 0, (0, 0, 0, 0), (0, 0)⟩).viewport = (0, 0, 800, 600) ∧
    (resize ⟨800, 600⟩ ⟨0, 0, (0, 0, 0, 0), (0, 0)⟩).resolutionUniform = (800, 600) :=
  C7_resize_matches_window ⟨800, 600⟩ ⟨0, 0, (0, 0, 0, 0), (0, 0)⟩ (by decide) (by decide)

/-- Claim C4: fbm p is the 5-octave fractal sum of smoothNoise sampled
at frequency 2^i with amplitude 0.5 * 0.5^i (amplitude 0.5 and
frequency 1 at octave 0, frequency doubling and amplitude halving each
octave). -/
theorem C4_fbm_octave_sum (p : Vec2) :
    fbm p = ∑ i ∈ Finset.range 5,
      (0.5 * (0.5 : ℝ) ^ i) * smoothNoise (((2 : ℝ) ^ i) • p) := by
  simp only [fbm, fbmLoop, Finset.sum_range_succ, Finset.sum_range_zero]
  norm_num [one_smul]

/-- Claim C5: smoothNoise p is the bilinear interpolation, with weights
eased by the smoothstep polynomial t * t * (3 - 2t) applied to the
fractional part of p, between the four noise hashes at the corners of
the unit cell of p (i = floor p). -/
theorem C5_smoothNoise_bilinear (p : Vec2) :
    smoothNoise p =
      bilerpSpec (noise ((⌊p.1⌋ : ℝ), (⌊p.2⌋ : ℝ)))
        (noise (((⌊p.1⌋ : ℝ), (⌊p.2⌋ : ℝ)) + (1, 0)))
        (noise (((⌊p.1⌋ : ℝ), (⌊p.2⌋ : ℝ)) + (0, 1)))
        (noise (((⌊p.1⌋ : ℝ), (⌊p.2⌋ : ℝ)) + (1, 1)))
        (smoothstepUnit (fract p.1)) (smoothstepUnit (fract p.2)) := by
  simp only [smoothNoise, bilerpSpec, smoothstepUnit, mix]
  ring

/-- Claim C6: the fragment colour is a pure, deterministic function of
the pixel coordinate and the two uniform values: two evaluations at
identical coordinate, time, and resolution give the identical colour. -/
theorem C6_fragment_determinism (c1 c2 : Vec2) (t1 t2 : ℝ) (r1 r2 : Vec2)
    (hc : c1 = c2) (ht : t1 = t2) (hr : r1 = r2) :
    fragMain c1 t1 r1 = fragMain c2 t2 r2 := by
  rw [hc, ht, hr]

/-- Witness for C6 at the concrete pixel (400, 300), time 2.5,
resolution (800, 600). -/
theorem C6_fragment_determinism_witness :
    fragMain (400, 300) 2.5 (800, 600) = fragMain (400, 300) 2.5 (800, 600) :=
  C6_fragment_determinism (400, 300) (400, 300) 2.5 2.5 (800, 600) (800, 600)
    rfl rfl rfl

/-- Claim C8: at elapsed time 0 both fractal fields are sampled at their
unshifted base coordinates: wave1 0 p = fbm p and
wave2 0 p = fbm (1.5 * p). -/
theorem C8_time_zero_unshifted (p : Vec2) :
    wave1 0 p = fbm p ∧ wave2 0 p = fbm ((1.5 : ℝ) • p) := by
  have h1 : p + ((0 : ℝ) * 0.05, (0 : ℝ) * 0.03) = p := by
    simp [Prod.ext_iff]
  have h2 : (1.5 : ℝ) • p - ((0 : ℝ) * 0.04, (0 : ℝ) * 0.02) = (1.5 : ℝ) • p := by
    simp [Prod.ext_iff]
  exact ⟨by rw [wave1, h1], by rw [wave2, h2]⟩

/-- The coordinate hash is nonnegative, being a fractional part. -/
theorem noise_nonneg (p : Vec2) : 0 ≤ noise p := Int.fract_nonneg _

/-- The coordinate hash is below 1, being a fractional part. -/
theorem noise_lt_one (p : Vec2) : noise p < 1 := Int.fract_lt_one _

/-- A mix with endpoints in the unit interval and weight in the unit
interval stays in the unit interval. -/
theorem mix_bounds {x y a : ℝ} (hx0 : 0 ≤ x) (hx1 : x ≤ 1) (hy0 : 0 ≤ y)
    (hy1 : y ≤ 1) (ha0 : 0 ≤ a) (ha1 : a ≤ 1) :
    0 ≤ mix x y a ∧ mix x y a ≤ 1 := by
  unfold mix
  constructor <;> nlinarith

/-- The eased weight t * t * (3 - 2t) stays in the unit interval for t
in the unit interval. -/
theorem ease_bounds {t : ℝ} (h0 : 0 ≤ t) (h1 : t ≤ 1) :
    0 ≤ t * t * (3 - 2 * t) ∧ t * t * (3 - 2 * t) ≤ 1 := by
  constructor
  · nlinarith
  · nlinarith [sq_nonneg (1 - t)]

/-- smoothNoise stays in the unit interval: all four corner hashes do,
and the eased bilinear interpolation preserves the interval. -/
theorem smoothNoise_bounds (p : Vec2) :
    0 ≤ smoothNoise p ∧ smoothNoise p ≤ 1 := by
  have hx0 : (0 : ℝ) ≤ fract p.1 := Int.fract_nonneg p.1
  have hx1 : fract p.1 ≤ 1 := le_of_lt (Int.fract_lt_one p.1)
  have hy0 : (0 : ℝ) ≤ fract p.2 := Int.fract_nonneg p.2
  have hy1 : fract p.2 ≤ 1 := le_of_lt (Int.fract_lt_one p.2)
  have hfx := ease_bounds hx0 hx1
  have hfy := ease_bounds hy0 hy1
  have hab := mix_bounds (noise_nonneg ((⌊p.1⌋ : ℝ), (⌊p.2⌋ : ℝ)))
    (le_of_lt (noise_lt_one ((⌊p.1⌋ : ℝ), (⌊p.2⌋ : ℝ))))
    (noise_nonneg (((⌊p.1⌋ : ℝ), (⌊p.2⌋ : ℝ)) + (1, 0)))
    (le_of_lt (noise_lt_one (((⌊p.1⌋ : ℝ), (⌊p.2⌋ : ℝ)) + (1, 0))))
    hfx.1 hfx.2
  have hcd := mix_bounds (noise_nonneg (((⌊p.1⌋ : ℝ), (⌊p.2⌋ : ℝ)) + (0, 1)))
    (le_of_lt (noise_lt_one (((⌊p.1⌋ : ℝ), (⌊p.2⌋ : ℝ)) + (0, 1))))
    (noise_nonneg (((⌊p.1⌋ : ℝ), (⌊p.2⌋ : ℝ)) + (1, 1)))
    (le_of_lt (noise_lt_one (((⌊p.1⌋ : ℝ), (⌊p.2⌋ : ℝ)) + (1, 1))))
    hfx.1 hfx.2
  have hm := mix_bounds hab.1 hab.2 hcd.1 hcd.2 hfy.1 hfy.2
  simpa only [smoothNoise] using hm

/-- Claim C9: fbm lies in the closed interval from 0 to 0.96875, the sum
of the five octave amplitudes, since every smoothNoise sample lies in
the unit interval. -/
theorem C9_fbm_range (p : Vec2) : 0 ≤ fbm p ∧ fbm p ≤ 0.96875 := by
  have h1 := smoothNoise_bounds p
  have h2 := smoothNoise_bounds ((2 : ℝ) • p)
  have h3 := smoothNoise_bounds ((4 : ℝ) • p)
  have h4 := smoothNoise_bounds ((8 : ℝ) • p)
  have h5 := smoothNoise_bounds ((16 : ℝ) • p)
  simp only [fbm, fbmLoop]
  norm_num [one_smul]
  constructor <;>
    nlinarith [h1.1, h1.2, h2.1, h2.2, h3.1, h3.2, h4.1, h4.2, h5.1, h5.2]

/-- Claim C3 as stated is false: the dither hash is not the noise hash
at a rescaled input. The scaling relating the two coefficient vectors is
0.01 (0.129898 = 0.01 * 12.9898 and 0.78233 = 0.01 * 78.233), and at the
pixel coordinate (0, pi / 2 / 0.78233) the noise side evaluates to the
rational 0.5453 via sin (pi / 2) = 1, while the dither side, lacking the
sine, is the fractional part of a nonzero rational multiple of pi and
hence irrational. -/
theorem C3_dither_differs_from_scaled_noise :
    dither (0, Real.pi / 2 / 0.78233) ≠
      noise ((0.01 : ℝ) • ((0, Real.pi / 2 / 0.78233) : Vec2)) := by
  have hdot1 : dot (0, Real.pi / 2 / 0.78233) (0.129898, 0.78233) * 43758.5453
      = Real.pi * (43758.5453 / 2) := by
    simp only [dot]
    field_simp
    ring
  have hdot2 : dot ((0.01 : ℝ) • ((0, Real.pi / 2 / 0.78233) : Vec2)) (12.9898, 78.233)
      = Real.pi / 2 := by
    simp only [dot, Prod.smul_fst, Prod.smul_snd, smul_eq_mul]
    field_simp
    ring
  have hnoise : noise ((0.01 : ℝ) • ((0, Real.pi / 2 / 0.78233) : Vec2)) = 0.5453 := by
    simp only [noise, fract, hdot2, Real.sin_pi_div_two, one_mul]
    rw [show (43758.5453 : ℝ) = (43758 : ℤ) + 0.5453 by norm_num, Int.fract_int_add]
    rw [Int.fract_eq_self.mpr ⟨by norm_num, by norm_num⟩]
  have hirr0 : Irrational (Real.pi * (((437585453 : ℚ) / 20000 : ℚ) : ℝ)) :=
    irrational_pi.mul_rat (by norm_num)
  have hcast : (((437585453 : ℚ) / 20000 : ℚ) : ℝ) = 43758.5453 / 2 := by norm_num
  have hirr : Irrational (Real.pi * (43758.5453 / 2)) := by
    rw [hcast] at hirr0
    exact hirr0
  have hfract_irr : Irrational (Int.fract (Real.pi * (43758.5453 / 2))) := by
    show Irrational (Real.pi * (43758.5453 / 2) - (⌊Real.pi * (43758.5453 / 2)⌋ : ℝ))
    exact hirr.sub_int _
  intro heq
  rw [dither, fract, hdot1, hnoise] at heq
  exact hfract_irr.ne_rat (5453 / 10000 : ℚ) (heq.trans (by norm_num))

/-- Claim C3 (amended): the dither value is the noise hash with the sine
omitted: for every p, dither p equals the fractional part of the noise
dot product taken at input scaling 0.01 times the same multiplier
43758.5453, but with no sine applied; and the dither value of the pixel
coordinate is added to the blended pattern scalar at weight 0.08. -/
theorem C3_dither_sineless_hash (p fragCoord : Vec2) (time : ℝ) (resolution : Vec2) :
    dither p = fract (dot ((0.01 : ℝ) • p) (12.9898, 78.233) * 43758.5453) ∧
    patternAt fragCoord time resolution =
      wave1 time ((3 : ℝ) • (fragCoord / resolution)) * 0.6 +
        wave2 time ((3 : ℝ) • (fragCoord / resolution)) * 0.4 +
        dither fragCoord * 0.08 := by
  constructor
  · simp only [dither, dot, fract, Prod.smul_fst, Prod.smul_snd, smul_eq_mul]
    congr 1
    ring
  · rfl

/-- Claim C10: the alpha component of the output fragment colour is
exactly 1 for every pixel coordinate, time, and resolution. -/
theorem C10_alpha_one (fragCoord : Vec2) (time : ℝ) (resolution : Vec2) :
    (fragMain fragCoord time resolution).2.2.2 = 1 := rfl

end NavalTech
